import Mathlib

/-!
Shallow embedding of the chapter-extraction core of `src/bot.py`
(`DVChapterBot._format_chapters`, lines 256-274).

The Python function reads the per-user preferences `m_color` and
`c_separator` from the database row of `user_id`; here they are explicit
parameters.  A Python `IndexError` (the only exception the body can raise,
from `lines[i+1]`) is modelled as `Except.error ()`; a normal return is
`Except.ok`.

The two regular expressions are embedded over `List Char` (Python `re`
scans code points):
  * `\d{2}:\d{2}:\d{2}` - `searchTime` returns the leftmost 8-character
    match `DD:DD:DD` (`\d` is modelled as an ASCII decimal digit);
  * `\|M:(.*?) \|D:` - `searchName` returns group 1 of the leftmost
    match: the shortest newline-free string between `|M:` and ` |D:`.
Python's `in` operator on strings is `isSubstrOf`.
-/

/-- Boolean test that `p` is a prefix of `s` (character lists). -/
def pfx : List Char → List Char → Bool
  | [], _ => true
  | _ :: _, [] => false
  | a :: ps, b :: ss => a == b && pfx ps ss

/-- Python's `pat in s` substring test, over character lists. -/
def isSubstrOf (pat : List Char) : List Char → Bool
  | [] => pat.isEmpty
  | c :: cs => pfx pat (c :: cs) || isSubstrOf pat cs

/-- The test on line `i+1` in `bot.py:267`:
`f'C:ResolveColor{m_color}' in lines[i+1]`. -/
def colorMatches (m_color meta : String) : Bool :=
  isSubstrOf ("C:ResolveColor" ++ m_color).data meta.data

/-- One attempted match of `\d{2}:\d{2}:\d{2}` anchored at the start of `cs`:
eight characters `DD:DD:DD`. -/
def timeMatchAt (cs : List Char) : Option (List Char) :=
  match cs with
  | a :: b :: c1 :: d :: e :: c2 :: f :: g :: _ =>
    if a.isDigit && b.isDigit && c1 == ':' && d.isDigit && e.isDigit &&
        c2 == ':' && f.isDigit && g.isDigit then
      some [a, b, c1, d, e, c2, f, g]
    else none
  | _ => none

/-- Embedding of `re.search(r"\d{2}:\d{2}:\d{2}", line)` (bot.py:268):
leftmost match, returning `group(0)`. -/
def searchTime : List Char → Option (List Char)
  | [] => none
  | c :: cs =>
    match timeMatchAt (c :: cs) with
    | some m => some m
    | none => searchTime cs

/-- The tail `(.*?) \|D:` of the label pattern, anchored at the start of
`cs`: the shortest newline-free capture followed by the literal `" |D:"`. -/
def lazyCapture : List Char → Option (List Char)
  | [] => if pfx (" |D:").data [] then some [] else none
  | c :: rest =>
    if pfx (" |D:").data (c :: rest) then some []
    else if c == '\n' then none
    else (lazyCapture rest).map (fun g => c :: g)

/-- Embedding of `re.search(r"\|M:(.*?) \|D:", line)` (bot.py:269):
leftmost match, returning `group(1)`.  If the lazy tail cannot complete at one occurrence
of `|M:`, the scan resumes one character further, as the backtracking
engine does. -/
def searchName : List Char → Option (List Char)
  | [] => none
  | c :: cs =>
    if pfx ("|M:").data (c :: cs) then
      match lazyCapture (List.drop 3 (c :: cs)) with
      | some g => some g
      | none => searchName cs
    else searchName cs

/-- Python list indexing `lines[i]`: `IndexError` becomes `Except.error`. -/
def getLine (lines : List String) (i : Nat) : Except Unit String :=
  match lines[i]? with
  | some s => Except.ok s
  | none => Except.error ()

/-- Python `range(3, n, 3)`: the indices `3, 6, 9, ...` below `n`. -/
def pyRange3 (n : Nat) : List Nat :=
  (List.range n).filter (fun i => decide (3 ≤ i ∧ i % 3 = 0))

/-- The `for i in range(3, n_lines, 3)` loop of bot.py:266-272, returning
the list of formatted chapter entries appended to `results`.  On each
index it reads `lines[i+1]` (this is where an `IndexError` can arise),
tests the color tag, and on a match extracts timestamp and label, keeping
the entry only when both extractions succeed. -/
def chapterLoop (m_color c_separator : String) (lines : List String) :
    List Nat → Except Unit (List String)
  | [] => Except.ok []
  | i :: rest =>
    (getLine lines (i + 1)).bind fun meta =>
      if colorMatches m_color meta then
        (getLine lines i).bind fun tline =>
          (chapterLoop m_color c_separator lines rest).map fun tail =>
            match searchTime tline.data, searchName meta.data with
            | some t, some nm =>
              (String.mk t ++ " " ++ c_separator ++ " " ++ String.mk nm) :: tail
            | _, _ => tail
      else chapterLoop m_color c_separator lines rest

/-- Embedding of `DVChapterBot._format_chapters` (bot.py:256-274), with
the user's stored `m_color` and `c_separator` passed explicitly.  Returns
`Except.error ()` where the Python code raises `IndexError`. -/
def _format_chapters (m_color c_separator : String) (lines : List String) :
    Except Unit String :=
  let n_lines := lines.length
  if n_lines < 6 then Except.ok ""
  else
    (chapterLoop m_color c_separator lines (pyRange3 n_lines)).map fun entries =>
      let results := "CAPITOLI\n--------------------" :: entries
      if 1 < results.length then String.intercalate "\n" results else ""

/-- The same loop with the separator-dependent formatting stripped: it
returns the `(timestamp, label)` pairs of the matching records whose two
extractions succeed, in order.  Used to express that the separator plays
no role in matching or extraction. -/
def rawLoop (m_color : String) (lines : List String) :
    List Nat → Except Unit (List (String × String))
  | [] => Except.ok []
  | i :: rest =>
    (getLine lines (i + 1)).bind fun meta =>
      if colorMatches m_color meta then
        (getLine lines i).bind fun tline =>
          (rawLoop m_color lines rest).map fun tail =>
            match searchTime tline.data, searchName meta.data with
            | some t, some nm => (String.mk t, String.mk nm) :: tail
            | _, _ => tail
      else rawLoop m_color lines rest

/-- The `(timestamp, label)` pairs extracted by `_format_chapters`,
independent of the separator. -/
def rawChapters (m_color : String) (lines : List String) :
    Except Unit (List (String × String)) :=
  if lines.length < 6 then Except.ok []
  else rawLoop m_color lines (pyRange3 lines.length)

/-! ### General lemmas about the embedding -/

/-- Membership in the Python range `range(3, n, 3)`. -/
lemma mem_pyRange3 {i n : Nat} : i ∈ pyRange3 n ↔ i < n ∧ 3 ≤ i ∧ i % 3 = 0 := by
  simp [pyRange3, List.mem_filter, List.mem_range]

/-- Mapping the identity function over an `Except` value. -/
lemma except_map_id {ε α : Type} (x : Except ε α) : x.map (fun a => a) = x := by
  cases x <;> rfl

/-- Joining exactly a header and one entry. -/
lemma intercalate_pair (a b : String) : String.intercalate "\n" [a, b] = a ++ "\n" ++ b := rfl

/-- Unfolding of `_format_chapters` when the length guard passes. -/
lemma format_chapters_eq (m_color c_separator : String) (lines : List String)
    (h : ¬ lines.length < 6) :
    _format_chapters m_color c_separator lines =
      (chapterLoop m_color c_separator lines (pyRange3 lines.length)).map fun entries =>
        if entries.isEmpty then ""
        else String.intercalate "\n" ("CAPITOLI\n--------------------" :: entries) := by
  unfold _format_chapters
  simp only [h, if_false]
  cases chapterLoop m_color c_separator lines (pyRange3 lines.length) with
  | error e => rfl
  | ok entries =>
    simp only [Except.map]
    cases entries <;> simp [List.isEmpty]

/-- The loop raises (propagates `IndexError`) as soon as some index `i` in
its list has `i+1` out of bounds. -/
lemma chapterLoop_error (m_color c_separator : String) (lines : List String)
    (is : List Nat) (i : Nat) (hmem : i ∈ is) (hoob : lines[i + 1]? = none) :
    chapterLoop m_color c_separator lines is = Except.error () := by
  induction is with
  | nil => cases hmem
  | cons j rest ih =>
    rcases List.mem_cons.mp hmem with rfl | hmem'
    · simp [chapterLoop, getLine, hoob, Except.bind]
    · have hrec := ih hmem'
      cases hg : lines[j + 1]? with
      | none => simp [chapterLoop, getLine, hg, Except.bind]
      | some meta =>
        by_cases hc : colorMatches m_color meta = true
        · cases hg2 : lines[j]? with
          | none => simp [chapterLoop, getLine, hg, hg2, hc, Except.bind]
          | some tl =>
            simp [chapterLoop, getLine, hg, hg2, hc, hrec, Except.bind, Except.map]
        · simp only [Bool.not_eq_true] at hc
          simp [chapterLoop, getLine, hg, hc, hrec, Except.bind]

/-- A record that matches the color but fails an extraction is skipped:
the loop continues with the remaining indices unchanged. -/
lemma chapterLoop_skip (m_color c_separator : String) (lines : List String)
    (i : Nat) (rest : List Nat) (meta tline : String)
    (hmeta : lines[i + 1]? = some meta)
    (htline : lines[i]? = some tline)
    (hcol : colorMatches m_color meta = true)
    (hfail : searchTime tline.data = none ∨ searchName meta.data = none) :
    chapterLoop m_color c_separator lines (i :: rest) =
      chapterLoop m_color c_separator lines rest := by
  have g1 : getLine lines (i + 1) = Except.ok meta := by simp [getLine, hmeta]
  have g2 : getLine lines i = Except.ok tline := by simp [getLine, htline]
  simp only [chapterLoop, g1, g2, hcol, if_true, Except.bind]
  rcases hfail with h | h
  · simp only [h]
    cases hsn : searchName meta.data <;> simp [except_map_id]
  · simp only [h]
    cases hst : searchTime tline.data <;> simp [except_map_id]

/-- If every index of the loop is in bounds (together with its metadata
line) and every record that matches the color fails an extraction, the
loop produces no entries. -/
lemma chapterLoop_ok_nil (m_color c_separator : String) (lines : List String)
    (is : List Nat)
    (hbound : ∀ i ∈ is, i + 1 < lines.length)
    (hno : ∀ i ∈ is, ∀ meta, lines[i + 1]? = some meta →
      colorMatches m_color meta = true →
      ∀ tline, lines[i]? = some tline →
        searchTime tline.data = none ∨ searchName meta.data = none) :
    chapterLoop m_color c_separator lines is = Except.ok [] := by
  induction is with
  | nil => rfl
  | cons j rest ih =>
    have hb : j + 1 < lines.length := hbound j (List.mem_cons_self _ _)
    have hj : j < lines.length := by omega
    have hmeta : lines[j + 1]? = some lines[j + 1] := List.getElem?_eq_getElem hb
    have htl : lines[j]? = some lines[j] := List.getElem?_eq_getElem hj
    have g1 : getLine lines (j + 1) = Except.ok lines[j + 1] := by
      simp [getLine, hmeta]
    have ihr := ih (fun i hi => hbound i (List.mem_cons_of_mem _ hi))
      (fun i hi => hno i (List.mem_cons_of_mem _ hi))
    by_cases hc : colorMatches m_color lines[j + 1] = true
    · have hf := hno j (List.mem_cons_self _ _) _ hmeta hc _ htl
      rw [chapterLoop_skip m_color c_separator lines j rest _ _ hmeta htl hc hf,
        ihr]
    · simp only [Bool.not_eq_true] at hc
      simp [chapterLoop, g1, hc, Except.bind, ihr]

/-- The formatted loop is the raw loop (color matching plus the two
extractions, no separator in sight) followed by pure formatting that
splices the separator verbatim between timestamp and label. -/
lemma chapterLoop_eq_rawLoop (m_color c_separator : String)
    (lines : List String) (is : List Nat) :
    chapterLoop m_color c_separator lines is =
      (rawLoop m_color lines is).map (List.map fun p : String × String =>
        p.1 ++ " " ++ c_separator ++ " " ++ p.2) := by
  induction is with
  | nil => rfl
  | cons j rest ih =>
    cases hm : lines[j + 1]? with
    | none =>
      have g : getLine lines (j + 1) = Except.error () := by simp [getLine, hm]
      simp [chapterLoop, rawLoop, g, Except.bind, Except.map]
    | some meta =>
      have g : getLine lines (j + 1) = Except.ok meta := by simp [getLine, hm]
      by_cases hc : colorMatches m_color meta = true
      · cases ht : lines[j]? with
        | none =>
          have g2 : getLine lines j = Except.error () := by simp [getLine, ht]
          simp [chapterLoop, rawLoop, g, g2, hc, Except.bind, Except.map]
        | some tl =>
          have g2 : getLine lines j = Except.ok tl := by simp [getLine, ht]
          simp only [chapterLoop, rawLoop, g, g2, hc, if_true, Except.bind]
          rw [ih]
          cases rawLoop m_color lines rest with
          | error e => rfl
          | ok tail =>
            simp only [Except.map]
            cases hst : searchTime tl.data <;>
              cases hsn : searchName meta.data <;> simp [List.map]
      · simp only [Bool.not_eq_true] at hc
        simp [chapterLoop, rawLoop, g, hc, Except.bind, ih]

/-- The loop only looks at the lines it indexes: two line lists that agree
on all positions `j ≥ 3` with `j % 3 ∈ {0, 1}` drive it identically, for
any index list drawn from the record stride. -/
lemma chapterLoop_congr (m_color c_separator : String) (l1 l2 : List String)
    (is : List Nat) (his : ∀ i ∈ is, 3 ≤ i ∧ i % 3 = 0)
    (hagree : ∀ j, 3 ≤ j → j % 3 = 0 ∨ j % 3 = 1 → l1[j]? = l2[j]?) :
    chapterLoop m_color c_separator l1 is =
      chapterLoop m_color c_separator l2 is := by
  induction is with
  | nil => rfl
  | cons j rest ih =>
    obtain ⟨h3, h0⟩ := his j (List.mem_cons_self _ _)
    have e1 : l1[j + 1]? = l2[j + 1]? := hagree (j + 1) (by omega) (by omega)
    have e0 : l1[j]? = l2[j]? := hagree j h3 (Or.inl h0)
    have g1 : getLine l1 (j + 1) = getLine l2 (j + 1) := by simp [getLine, e1]
    have g0 : getLine l1 j = getLine l2 j := by simp [getLine, e0]
    have ihr := ih (fun i hi => his i (List.mem_cons_of_mem _ hi))
    simp only [chapterLoop, g1, g0, ihr]

/-- A prefix test survives dropping a suffix of the pattern. -/
lemma pfx_append (p q s : List Char) (h : pfx (p ++ q) s = true) :
    pfx p s = true := by
  induction p generalizing s with
  | nil => rfl
  | cons a ps ih =>
    cases s with
    | nil => simp [pfx] at h
    | cons b ss =>
      simp only [List.cons_append, pfx, Bool.and_eq_true] at h ⊢
      exact ⟨h.1, ih ss h.2⟩

/-- A substring test survives dropping a suffix of the pattern. -/
lemma isSubstrOf_append (p q s : List Char)
    (h : isSubstrOf (p ++ q) s = true) : isSubstrOf p s = true := by
  induction s with
  | nil =>
    cases p with
    | nil => rfl
    | cons a ps => simp [isSubstrOf, List.isEmpty] at h
  | cons c cs ih =>
    simp only [isSubstrOf, Bool.or_eq_true] at h ⊢
    rcases h with h | h
    · exact Or.inl (pfx_append p q _ h)
    · exact Or.inr (ih h)

/-! ### Claims -/

/-- C3: for every input with fewer than 6 lines, and any marker color and
separator, `_format_chapters` returns the empty string. -/
theorem claim_C3 (m_color c_separator : String) (lines : List String)
    (h : lines.length < 6) :
    _format_chapters m_color c_separator lines = Except.ok "" := by
  unfold _format_chapters
  simp [h]

/-- Witness for C3 at a concrete one-line input. -/
theorem claim_C3_witness :
    (["x"] : List String).length < 6 ∧
      _format_chapters "Blue" "-" ["x"] = Except.ok "" :=
  ⟨by decide, claim_C3 "Blue" "-" ["x"] (by decide)⟩

/-- C10: `_format_chapters` is deterministic — it is a pure function of
the marker color, the separator and the lines, so two invocations on
identical inputs return identical results (the embedding has no state to
mutate; the Python function only reads the stored preferences, which are
the two string parameters here). -/
theorem claim_C10 (m_color c_separator : String) (lines : List String) :
    _format_chapters m_color c_separator lines =
      _format_chapters m_color c_separator lines := rfl

/-- C1 (the claim is violated by the code): whenever `len(lines) ≥ 7` and
`len(lines) % 3 == 1`, the loop reaches `i = len(lines) - 1` and
`lines[i+1]` raises `IndexError`, so `_format_chapters` raises instead of
returning a string. -/
theorem claim_C1 (m_color c_separator : String) (lines : List String)
    (h7 : 7 ≤ lines.length) (hmod : lines.length % 3 = 1) :
    _format_chapters m_color c_separator lines = Except.error () := by
  have hmem : lines.length - 1 ∈ pyRange3 lines.length :=
    mem_pyRange3.mpr ⟨by omega, by omega, by omega⟩
  have hoob : lines[(lines.length - 1) + 1]? = none := by
    rw [show lines.length - 1 + 1 = lines.length from by omega]
    exact List.getElem?_eq_none (Nat.le_refl _)
  have herr := chapterLoop_error m_color c_separator lines _ _ hmem hoob
  unfold _format_chapters
  simp [show ¬ lines.length < 6 from by omega, herr, Except.map]

/-- Witness for C1: a concrete 7-line input on which the code raises. -/
theorem claim_C1_witness :
    (7 : Nat) ≤ (["a", "b", "c", "d", "e", "f", "g"] : List String).length ∧
      (["a", "b", "c", "d", "e", "f", "g"] : List String).length % 3 = 1 ∧
      _format_chapters "Blue" "-" ["a", "b", "c", "d", "e", "f", "g"] =
        Except.error () :=
  ⟨by decide, by decide,
    claim_C1 "Blue" "-" ["a", "b", "c", "d", "e", "f", "g"] (by decide) (by decide)⟩

/-- C2: a 6-line input whose single record (lines 3 and 4) matches the
requested color and whose extractions succeed yields exactly
`"CAPITOLI\n--------------------\n{time} {sep} {label}"`, where `{time}`
is the first timestamp match of line 3 and `{label}` the first captured
label of line 4. -/
theorem claim_C2 (h0 h1 h2 l3 l4 l5 m_color c_separator : String)
    (t nm : List Char)
    (hcol : colorMatches m_color l4 = true)
    (ht : searchTime l3.data = some t)
    (hnm : searchName l4.data = some nm) :
    _format_chapters m_color c_separator [h0, h1, h2, l3, l4, l5] =
      Except.ok ("CAPITOLI\n--------------------\n" ++ String.mk t ++ " " ++
        c_separator ++ " " ++ String.mk nm) := by
  have hlen : ([h0, h1, h2, l3, l4, l5] : List String).length = 6 := rfl
  rw [format_chapters_eq _ _ _ (by rw [hlen]; omega), hlen,
    show pyRange3 6 = [3] from rfl]
  have g4 : getLine [h0, h1, h2, l3, l4, l5] 4 = Except.ok l4 := rfl
  have g3 : getLine [h0, h1, h2, l3, l4, l5] 3 = Except.ok l3 := rfl
  simp only [chapterLoop, g3, g4, hcol, if_true, Except.bind, Except.map, ht, hnm]
  rw [show ("CAPITOLI\n--------------------\n" : String) =
      "CAPITOLI\n--------------------" ++ "\n" from rfl]
  refine congrArg Except.ok ?_
  simp only [List.isEmpty, intercalate_pair]
  refine String.ext ?_
  simp [String.data_append, List.append_assoc]

/-- Witness for C2: the concrete scenario from the spec. -/
theorem claim_C2_witness :
    colorMatches "Blue" "...|M:Intro |D:...C:ResolveColorBlue..." = true ∧
      searchTime ("00:01:23:00").data = some ("00:01:23").data ∧
      searchName ("...|M:Intro |D:...C:ResolveColorBlue...").data =
        some ("Intro").data ∧
      _format_chapters "Blue" "-"
        ["H1", "H2", "H3", "00:01:23:00",
          "...|M:Intro |D:...C:ResolveColorBlue...", "skip"] =
        Except.ok "CAPITOLI\n--------------------\n00:01:23 - Intro" :=
  ⟨by decide, by decide, by decide, by
    have h := claim_C2 "H1" "H2" "H3" "00:01:23:00"
      "...|M:Intro |D:...C:ResolveColorBlue..." "skip" "Blue" "-"
      ("00:01:23").data ("Intro").data (by decide) (by decide) (by decide)
    exact h.trans (by rfl)⟩

/-- C6: with a 3-line header and two records (at `i = 3` and `i = 6`),
where only the second record's metadata line carries the color tag and its
extractions succeed, the output consists of the header and exactly one
chapter line, built from the second record's timestamp and label. -/
theorem claim_C6 (h0 h1 h2 l3 l4 l5 l6 l7 l8 m_color c_separator : String)
    (t nm : List Char)
    (hcol1 : colorMatches m_color l4 = false)
    (hcol2 : colorMatches m_color l7 = true)
    (ht : searchTime l6.data = some t)
    (hnm : searchName l7.data = some nm) :
    _format_chapters m_color c_separator [h0, h1, h2, l3, l4, l5, l6, l7, l8] =
      Except.ok ("CAPITOLI\n--------------------\n" ++ String.mk t ++ " " ++
        c_separator ++ " " ++ String.mk nm) := by
  have hlen : ([h0, h1, h2, l3, l4, l5, l6, l7, l8] : List String).length = 9 := rfl
  rw [format_chapters_eq _ _ _ (by rw [hlen]; omega), hlen,
    show pyRange3 9 = [3, 6] from rfl]
  have g4 : getLine [h0, h1, h2, l3, l4, l5, l6, l7, l8] 4 = Except.ok l4 := rfl
  have g6 : getLine [h0, h1, h2, l3, l4, l5, l6, l7, l8] 6 = Except.ok l6 := rfl
  have g7 : getLine [h0, h1, h2, l3, l4, l5, l6, l7, l8] 7 = Except.ok l7 := rfl
  simp only [chapterLoop, g4, g6, g7, hcol1, hcol2, Bool.false_eq_true, if_false,
    if_true, Except.bind, Except.map, ht, hnm]
  rw [show ("CAPITOLI\n--------------------\n" : String) =
      "CAPITOLI\n--------------------" ++ "\n" from rfl]
  refine congrArg Except.ok ?_
  simp only [List.isEmpty, intercalate_pair]
  refine String.ext ?_
  simp [String.data_append, List.append_assoc]

/-- Witness for C6 at a concrete input where only the second record is a
`Blue` marker. -/
theorem claim_C6_witness :
    colorMatches "Blue" "x|M:A |D:xC:ResolveColorRedx" = false ∧
      colorMatches "Blue" "x|M:Two |D:xC:ResolveColorBluex" = true ∧
      searchTime ("00:02:00:00").data = some ("00:02:00").data ∧
      searchName ("x|M:Two |D:xC:ResolveColorBluex").data = some ("Two").data ∧
      _format_chapters "Blue" "-"
        ["H1", "H2", "H3", "00:01:00:00", "x|M:A |D:xC:ResolveColorRedx", "s1",
          "00:02:00:00", "x|M:Two |D:xC:ResolveColorBluex", "s2"] =
        Except.ok "CAPITOLI\n--------------------\n00:02:00 - Two" :=
  ⟨by decide, by decide, by decide, by decide, by
    have h := claim_C6 "H1" "H2" "H3" "00:01:00:00"
      "x|M:A |D:xC:ResolveColorRedx" "s1" "00:02:00:00"
      "x|M:Two |D:xC:ResolveColorBluex" "s2" "Blue" "-"
      ("00:02:00").data ("Two").data (by decide) (by decide) (by decide) (by decide)
    exact h.trans (by rfl)⟩

/-- C5: a record whose metadata line carries the color tag but whose
timestamp or label extraction fails is skipped without error: the loop on
`i :: rest` equals the loop on `rest`, so subsequent well-formed matching
records contribute exactly as they would without this record. -/
theorem claim_C5 (m_color c_separator : String) (lines : List String)
    (i : Nat) (rest : List Nat) (meta tline : String)
    (hmeta : lines[i + 1]? = some meta)
    (htline : lines[i]? = some tline)
    (hcol : colorMatches m_color meta = true)
    (hfail : searchTime tline.data = none ∨ searchName meta.data = none) :
    chapterLoop m_color c_separator lines (i :: rest) =
      chapterLoop m_color c_separator lines rest :=
  chapterLoop_skip m_color c_separator lines i rest meta tline hmeta htline
    hcol hfail

/-- Witness for C5: a matching record with no timestamp is skipped and the
following record is still extracted. -/
theorem claim_C5_witness :
    (["H1", "H2", "H3", "no-time", "x|M:A |D:xC:ResolveColorBluex", "s1",
        "00:02:00:00", "x|M:Two |D:xC:ResolveColorBluex", "s2"] :
        List String)[3 + 1]? = some "x|M:A |D:xC:ResolveColorBluex" ∧
      colorMatches "Blue" "x|M:A |D:xC:ResolveColorBluex" = true ∧
      searchTime ("no-time").data = none ∧
      chapterLoop "Blue" "-"
        ["H1", "H2", "H3", "no-time", "x|M:A |D:xC:ResolveColorBluex", "s1",
          "00:02:00:00", "x|M:Two |D:xC:ResolveColorBluex", "s2"] [3, 6] =
        chapterLoop "Blue" "-"
          ["H1", "H2", "H3", "no-time", "x|M:A |D:xC:ResolveColorBluex", "s1",
            "00:02:00:00", "x|M:Two |D:xC:ResolveColorBluex", "s2"] [6] :=
  ⟨by decide, by decide, by decide,
    claim_C5 "Blue" "-"
      ["H1", "H2", "H3", "no-time", "x|M:A |D:xC:ResolveColorBluex", "s1",
        "00:02:00:00", "x|M:Two |D:xC:ResolveColorBluex", "s2"]
      3 [6] "x|M:A |D:xC:ResolveColorBluex" "no-time"
      (by decide) (by decide) (by decide) (Or.inl (by decide))⟩

/-- Counterexample to C4 as stated: a 7-line input with no matching record
does not return the empty string — the loop reaches `i = 6` and
`lines[7]` raises `IndexError` (the same off-by-one as C1). -/
theorem claim_C4_counterexample :
    ¬ _format_chapters "Blue" "-" ["h1", "h2", "h3", "t1", "m1", "s1", "t2"] =
      Except.ok "" := by
  intro h
  rw [show _format_chapters "Blue" "-" ["h1", "h2", "h3", "t1", "m1", "s1", "t2"] =
      Except.error () from rfl] at h
  exact Except.noConfusion h

/-- C4 (amended: the record stride must also stay in bounds, i.e.
`len(lines) % 3 ≠ 1`): if every record whose metadata line carries the
color tag fails the timestamp or the label extraction — in particular if
no record matches at all — the function returns the empty string rather
than a header-only document. -/
theorem claim_C4 (m_color c_separator : String) (lines : List String)
    (h6 : 6 ≤ lines.length) (hmod : lines.length % 3 ≠ 1)
    (hno : ∀ i ∈ pyRange3 lines.length, ∀ meta, lines[i + 1]? = some meta →
      colorMatches m_color meta = true →
      ∀ tline, lines[i]? = some tline →
        searchTime tline.data = none ∨ searchName meta.data = none) :
    _format_chapters m_color c_separator lines = Except.ok "" := by
  have hbound : ∀ i ∈ pyRange3 lines.length, i + 1 < lines.length := by
    intro i hi
    obtain ⟨hlt, h3, h0⟩ := mem_pyRange3.mp hi
    omega
  rw [format_chapters_eq _ _ _ (by omega),
    chapterLoop_ok_nil m_color c_separator lines _ hbound hno]
  rfl

/-- Witness for C4 at a concrete 6-line input with no matching record. -/
theorem claim_C4_witness :
    6 ≤ (["H1", "H2", "H3", "t", "m", "s"] : List String).length ∧
      (["H1", "H2", "H3", "t", "m", "s"] : List String).length % 3 ≠ 1 ∧
      _format_chapters "Blue" "-" ["H1", "H2", "H3", "t", "m", "s"] =
        Except.ok "" :=
  ⟨by decide, by decide,
    claim_C4 "Blue" "-" ["H1", "H2", "H3", "t", "m", "s"] (by decide) (by decide)
      (by
        intro i hi meta hmeta hc tline htl
        have hi3 : i = 3 := by
          obtain ⟨hlt, h3, h0⟩ := mem_pyRange3.mp hi
          simp only [List.length_cons, List.length_nil] at hlt
          omega
        subst hi3
        rw [show (["H1", "H2", "H3", "t", "m", "s"] : List String)[3 + 1]? =
            some "m" from rfl] at hmeta
        injection hmeta with hmeta
        subst hmeta
        exact absurd hc (by decide))⟩

/-- C7: the separator is used only in the final string formatting — the
result is the separator-independent `rawChapters` (matching plus the two
extractions) rendered by splicing the separator verbatim between each
timestamp and label.  In particular any two separators (regex-special
characters included) select and extract exactly the same records. -/
theorem claim_C7 (m_color c_separator : String) (lines : List String) :
    _format_chapters m_color c_separator lines =
      (rawChapters m_color lines).map fun rs =>
        if rs.isEmpty then ""
        else String.intercalate "\n" ("CAPITOLI\n--------------------" ::
          rs.map fun p => p.1 ++ " " ++ c_separator ++ " " ++ p.2) := by
  by_cases h : lines.length < 6
  · unfold _format_chapters rawChapters
    simp [h, Except.map]
  · rw [format_chapters_eq _ _ _ h, chapterLoop_eq_rawLoop]
    unfold rawChapters
    rw [if_neg h]
    cases rawLoop m_color lines (pyRange3 lines.length) with
    | error e => rfl
    | ok rs =>
      simp only [Except.map]
      cases rs <;> simp [List.isEmpty, List.map]

/-- C8: the output depends only on the timestamp and metadata line of each
record — two inputs of the same length that agree on every index `j ≥ 3`
with `j % 3 ∈ {0, 1}` (and may differ on the three header lines and on
every third line of a triplet) produce the same result. -/
theorem claim_C8 (m_color c_separator : String) (l1 l2 : List String)
    (hlen : l1.length = l2.length)
    (hagree : ∀ j, 3 ≤ j → j % 3 = 0 ∨ j % 3 = 1 → l1[j]? = l2[j]?) :
    _format_chapters m_color c_separator l1 =
      _format_chapters m_color c_separator l2 := by
  by_cases h : l1.length < 6
  · have h2 : l2.length < 6 := hlen ▸ h
    unfold _format_chapters
    simp [h, h2]
  · have h2 : ¬ l2.length < 6 := hlen ▸ h
    rw [format_chapters_eq _ _ _ h, format_chapters_eq _ _ _ h2, hlen,
      chapterLoop_congr m_color c_separator l1 l2 _
        (fun i hi => ⟨(mem_pyRange3.mp hi).2.1, (mem_pyRange3.mp hi).2.2⟩)
        hagree]

/-- Witness for C8: changing the header lines and the third line of the
triplet leaves the output unchanged. -/
theorem claim_C8_witness :
    (["H1", "H2", "H3", "00:01:00:00", "x|M:A |D:xC:ResolveColorBluex", "s1"] :
        List String).length =
      (["X", "Y", "Z", "00:01:00:00", "x|M:A |D:xC:ResolveColorBluex", "junk"] :
        List String).length ∧
      _format_chapters "Blue" "-"
          ["H1", "H2", "H3", "00:01:00:00", "x|M:A |D:xC:ResolveColorBluex", "s1"] =
        _format_chapters "Blue" "-"
          ["X", "Y", "Z", "00:01:00:00", "x|M:A |D:xC:ResolveColorBluex", "junk"] :=
  ⟨by decide,
    claim_C8 "Blue" "-"
      ["H1", "H2", "H3", "00:01:00:00", "x|M:A |D:xC:ResolveColorBluex", "s1"]
      ["X", "Y", "Z", "00:01:00:00", "x|M:A |D:xC:ResolveColorBluex", "junk"]
      (by decide)
      (by
        intro j h3 hm
        have : j = 3 ∨ j = 4 ∨ 6 ≤ j := by omega
        rcases this with rfl | rfl | h6
        · rfl
        · rfl
        · rw [List.getElem?_eq_none (show 6 ≤ j from h6),
            List.getElem?_eq_none (show 6 ≤ j from h6)])⟩

/-- C9: the color test of bot.py:267 is plain substring containment of
`"C:ResolveColor" + m_color`, so it over-matches: any metadata line
containing that tag followed by arbitrary further characters (for example
color `"Blue"` against `...C:ResolveColorBlueDark...`) is treated as a
match, and with the empty color every line containing `"C:ResolveColor"`
matches. -/
theorem claim_C9 :
    (∀ m_color suffix meta : String,
        isSubstrOf ("C:ResolveColor" ++ m_color ++ suffix).data meta.data = true →
        colorMatches m_color meta = true) ∧
      ∀ meta : String, isSubstrOf ("C:ResolveColor").data meta.data = true →
        colorMatches "" meta = true := by
  constructor
  · intro c suffix meta h
    unfold colorMatches
    rw [show ("C:ResolveColor" ++ c ++ suffix).data =
        ("C:ResolveColor" ++ c).data ++ suffix.data by simp [String.data_append]] at h
    exact isSubstrOf_append _ _ _ h
  · intro meta h
    unfold colorMatches
    rw [show ("C:ResolveColor" ++ "" : String) = "C:ResolveColor" from rfl]
    exact h

/-- Witness for C9: a `BlueDark` marker is accepted when `Blue` was
requested. -/
theorem claim_C9_witness :
    isSubstrOf ("C:ResolveColor" ++ "Blue" ++ "Dark").data
        ("aC:ResolveColorBlueDarkb").data = true ∧
      colorMatches "Blue" "aC:ResolveColorBlueDarkb" = true :=
  ⟨by decide, claim_C9.1 "Blue" "Dark" "aC:ResolveColorBlueDarkb" (by decide)⟩
